import Mathlib

/-!
Verification of the `FoliateViewer` component
(`src/apps/readest-app/src/app/reader/components/FoliateViewer.tsx`).

The component is single-threaded event-loop glue code; we embed each of its
handlers and effects as a pure Lean function from its inputs (event detail,
settings snapshot, store lookups passed as function parameters) to the list
of observable effects it issues (attribute writes, store writes, navigation
calls), and prove the spec's properties about those functions.
-/

namespace FoliateViewer

/-- Layout insets supplied by the host container (`padding` prop). -/
structure Padding where
  top : Int
  right : Int
  bottom : Int
  left : Int
deriving DecidableEq, Repr

/-- The per-book view settings record, restricted to the fields this
component reads (`viewSettings.*` accesses in the source). -/
structure ViewSettings where
  writingMode : String
  showHeader : Bool
  showFooter : Bool
  marginPx : Int
  compactMarginPx : Int
  gapPercent : Int
  compactGapPercent : Int
  scrolled : Bool
deriving DecidableEq, Repr

/-- A `renderer.setAttribute(name, value)` call. -/
structure AttrWrite where
  name : String
  value : String
deriving DecidableEq, Repr

/-- Embedding of `applyMarginAndGap` (source lines 246-258): computes the
sequence of renderer attribute writes it performs, given the current
settings snapshot (`getViewSettings(bookKey)`) and the padding prop. -/
def applyMarginAndGap (viewSettings : ViewSettings) (padding : Padding) : List AttrWrite :=
  let showHeader := viewSettings.showHeader
  let showFooter := viewSettings.showFooter
  let isCompact := !showHeader && !showFooter
  let marginPx := if isCompact then viewSettings.compactMarginPx else viewSettings.marginPx
  let gapPercent := if isCompact then viewSettings.compactGapPercent else viewSettings.gapPercent
  [⟨"margin", toString (marginPx + padding.top) ++ "px"⟩,
   ⟨"gap", toString gapPercent ++ "%"⟩] ++
  (if viewSettings.scrolled then [⟨"flow", "scrolled"⟩] else [])

/-- The component-instance state touched by the mount effect: the
`isViewCreated` ref latch, and a counter of how many times the `openBook`
routine has been started. -/
structure MountState where
  isViewCreated : Bool
  openBookRuns : Nat
deriving DecidableEq, Repr

/-- One firing of the mount effect (source lines 172-244): the latch is
checked and set synchronously, before `openBook()` is invoked, so the whole
check-set-invoke sequence is a single atomic step of the event loop. -/
def mountEffect (s : MountState) : MountState :=
  if s.isViewCreated then s
  else { isViewCreated := true, openBookRuns := s.openBookRuns + 1 }

/-- Fresh component instance: `isViewCreated` ref initialised to `false`,
no `openBook` started. -/
def initialMountState : MountState := { isViewCreated := false, openBookRuns := 0 }

/-- `n` re-triggers of the mount effect in sequence. -/
def retrigger : Nat → MountState → MountState
  | 0, s => s
  | n + 1, s => retrigger n (mountEffect s)

theorem mountEffect_created (k : Nat) : mountEffect ⟨true, k⟩ = ⟨true, k⟩ := rfl

theorem retrigger_created (n k : Nat) : retrigger n ⟨true, k⟩ = ⟨true, k⟩ := by
  induction n with
  | zero => rfl
  | succ n ih => simpa [retrigger, mountEffect] using ih

/-- Context record handed to the external `transformContent` pipeline
(source lines 88-93). -/
structure TransformCtx where
  bookKey : String
  viewSettings : ViewSettings
  content : String
  transformers : List String
deriving DecidableEq, Repr

/-- The `.then` continuation of the data-transform handler (source lines
83-97): given the settings-store snapshot taken at delivery time and the
viewport dimensions captured at open time, dispatches the payload on its
declared MIME type.  The external `transformStylesheet` and
`transformContent` collaborators are parameters; each may fail
(`Except.error` models a thrown error / rejected promise). -/
def docTransformStep
    (transformStylesheet : ViewSettings → Int → Int → String → Except String String)
    (transformContent : TransformCtx → Except String String)
    (bookKey : String) (viewSettings : Option ViewSettings) (width height : Int)
    (dtype : String) (data : String) : Except String String :=
  match viewSettings with
  | some vs =>
    if dtype = "text/css" then
      transformStylesheet vs width height data
    else if dtype = "application/xhtml+xml" then
      transformContent { bookKey := bookKey, viewSettings := vs, content := data,
                         transformers := ["punctuation", "footnote"] }
    else
      Except.ok data
  | none => Except.ok data

/-- The full promise chain `Promise.resolve(detail.data).then(...).catch(...)`
(source lines 82-101): the incoming payload may itself be rejected, the
`.then` step may fail, and the `.catch` clause replaces any error with the
empty string while logging a diagnostic naming the failing resource.
Returns the content finally delivered to the widget, paired with the list
of logged diagnostics. -/
def docTransformHandler
    (transformStylesheet : ViewSettings → Int → Int → String → Except String String)
    (transformContent : TransformCtx → Except String String)
    (bookKey : String) (viewSettings : Option ViewSettings) (width height : Int)
    (dtype : String) (dname : String) (data : Except String String) :
    String × List String :=
  match data.bind
      (docTransformStep transformStylesheet transformContent bookKey viewSettings width height dtype) with
  | Except.ok s => (s, [])
  | Except.error _ => ("", ["Failed to load " ++ dname])

/-- The payload of a renderer-relocate event (source lines 145-160). -/
structure RendererRelocateDetail where
  reason : String
  index : Nat
  fraction : Int
deriving DecidableEq, Repr

/-- A propagated `renderer.goTo({ index, anchor })` navigation call issued
to the view registered under `key`. -/
structure GoToCall where
  key : String
  index : Nat
  anchor : Int
deriving DecidableEq, Repr

/-- Embedding of `docRelocateHandler` (source lines 145-160).
`getParallels` is the parallel-view-store lookup (`none` when the key has
no group); `hasRenderer key` states that `getView(key)?.renderer` is
non-null.  Returns the list of `goTo` calls issued, in iteration order. -/
def docRelocateHandler (bookKey : String)
    (getParallels : String → Option (List String))
    (hasRenderer : String → Bool)
    (detail : RendererRelocateDetail) : List GoToCall :=
  if detail.reason ≠ "scroll" ∧ detail.reason ≠ "page" then []
  else
    match getParallels bookKey with
    | some parallelViews =>
      if 0 < parallelViews.length then
        parallelViews.flatMap (fun key =>
          if key ≠ bookKey then
            if hasRenderer key then [⟨key, detail.index, detail.fraction⟩] else []
          else [])
      else []
    | none => []

/-- The payload of a relocate (progress) event (source lines 66-77). -/
structure ProgressDetail where
  cfi : String
  tocItem : String
  «section» : Nat
  location : String
  time : Int
  range : String
deriving DecidableEq, Repr

/-- A `setProgress(bookKey, cfi, tocItem, section, location, time, range)`
write into the reader-progress store. -/
structure ProgressWrite where
  bookKey : String
  cfi : String
  tocItem : String
  «section» : Nat
  location : String
  time : Int
  range : String
deriving DecidableEq, Repr

/-- Embedding of `progressRelocateHandler` (source lines 66-77): the store
writes issued for one relocate event. -/
def progressRelocateHandler (bookKey : String) (detail : ProgressDetail) :
    List ProgressWrite :=
  [⟨bookKey, detail.cfi, detail.tocItem, detail.section, detail.location,
    detail.time, detail.range⟩]

/-- Embedding of the direction-resolution block of `openBook` (source lines
188-198).  `getBookDirFromWritingMode` and `getBookDirFromLanguage` are the
external helpers from `@/utils/book`, passed as parameters; `writingMode`
is `viewSettings.writingMode`, `language` is `bookDoc.metadata.language`,
and `dir` is the incoming `bookDoc.dir`.  Returns the resulting
`bookDoc.dir`. -/
def resolveBookDir
    (getBookDirFromWritingMode : String → String)
    (getBookDirFromLanguage : String → String)
    (writingMode : String) (language : String) (dir : String) : String :=
  if writingMode ≠ "" then
    let settingsDir := getBookDirFromWritingMode writingMode
    let languageDir := getBookDirFromLanguage language
    if settingsDir ≠ "auto" then settingsDir
    else if languageDir ≠ "auto" then languageDir
    else dir
  else dir

/-- The observable steps of the asynchronous `openBook` routine (source
lines 176-240), in program order; each `await` boundary is a step. -/
inductive OpenStep where
  | importViewModule
  | createElement
  | appendToBody
  | appendToContainer
  | measureContainer
  | resolveDirection
  | awaitOpen
  | setViewRef
  | registerView
  | addLoadListener
  | addDataListener
  | setRendererStyles
  | lockOrientation
  | setAnimatedAttr
  | removeAnimatedAttr
  | setMaxColumnCount
  | setMaxInlineSize
  | setMaxBlockSize
  | applyMarginAndGapStep
  | initLastLocation
  | goToFractionZero
deriving DecidableEq, Repr

/-- The straight-line trace of one `openBook` execution, as a function of
the three branch conditions in its body: `appService?.isMobileApp`,
`viewSettings.animated`, and whether `config.location` is present
(source lines 176-240).  `awaitOpen` is the completion of
`await view.open(bookDoc)`; `setViewRef` and `registerView` are
`viewRef.current = view` and `setFoliateView(bookKey, view)`. -/
def openBookTrace (isMobileApp animated hasLastLocation : Bool) : List OpenStep :=
  [OpenStep.importViewModule, OpenStep.createElement, OpenStep.appendToBody,
   OpenStep.appendToContainer, OpenStep.measureContainer, OpenStep.resolveDirection,
   OpenStep.awaitOpen, OpenStep.setViewRef, OpenStep.registerView,
   OpenStep.addLoadListener, OpenStep.addDataListener, OpenStep.setRendererStyles] ++
  (if isMobileApp then [OpenStep.lockOrientation] else []) ++
  (if animated then [OpenStep.setAnimatedAttr] else [OpenStep.removeAnimatedAttr]) ++
  [OpenStep.setMaxColumnCount, OpenStep.setMaxInlineSize, OpenStep.setMaxBlockSize,
   OpenStep.applyMarginAndGapStep] ++
  (if hasLastLocation then [OpenStep.initLastLocation] else [OpenStep.goToFractionZero])

/-- The render-time state the two re-application effects depend on
(source lines 260-284): theme store values, the padding prop, and the
render-time settings snapshot `getViewSettings(bookKey)`. -/
structure RenderState where
  themeCode : String
  isDarkMode : Bool
  padding : Padding
  viewSettings : Option ViewSettings
deriving DecidableEq, Repr

/-- Dependency array of the style-reapplication effect
(source lines 260-266): `[themeCode, isDarkMode]`. -/
def styleEffectDeps (s : RenderState) : String × Bool :=
  (s.themeCode, s.isDarkMode)

/-- The entries of the margin/gap effect's dependency array. -/
structure MarginGapDeps where
  paddingTop : Int
  paddingRight : Int
  paddingBottom : Int
  paddingLeft : Int
  showHeader : Option Bool
  showFooter : Option Bool
  marginPx : Option Int
  compactMarginPx : Option Int
  gapPercent : Option Int
  compactGapPercent : Option Int
deriving DecidableEq, Repr

/-- Dependency array of the margin/gap-reapplication effect (source lines
268-284): the four padding insets and the six optional-chained settings
fields. -/
def marginGapEffectDeps (s : RenderState) : MarginGapDeps :=
  { paddingTop := s.padding.top, paddingRight := s.padding.right,
    paddingBottom := s.padding.bottom, paddingLeft := s.padding.left,
    showHeader := s.viewSettings.map ViewSettings.showHeader,
    showFooter := s.viewSettings.map ViewSettings.showFooter,
    marginPx := s.viewSettings.map ViewSettings.marginPx,
    compactMarginPx := s.viewSettings.map ViewSettings.compactMarginPx,
    gapPercent := s.viewSettings.map ViewSettings.gapPercent,
    compactGapPercent := s.viewSettings.map ViewSettings.compactGapPercent }

/-- The two re-application effects of the component. -/
inductive EffectKind where
  | styleEffect
  | marginGapEffect
deriving DecidableEq, Repr

/-- React effect semantics: on a re-render taking the dependency state from
`s` to s-prime, an effect re-runs exactly when its dependency array
changed. Returns the effects re-run. -/
def effectsTriggered (s s' : RenderState) : List EffectKind :=
  (if styleEffectDeps s ≠ styleEffectDeps s' then [EffectKind.styleEffect] else []) ++
  (if marginGapEffectDeps s ≠ marginGapEffectDeps s' then [EffectKind.marginGapEffect] else [])

/-- A sample settings record used to instantiate theorems at concrete
inputs. -/
def sampleSettings : ViewSettings :=
  { writingMode := "horizontal-tb", showHeader := false, showFooter := false,
    marginPx := 10, compactMarginPx := 4, gapPercent := 6, compactGapPercent := 2,
    scrolled := true }

/-- C1: the widget constructor (`openBook`) runs at most once per component
instance, no matter how many times the mount effect is re-triggered: after
`n` firings starting from a fresh instance, `openBook` has been started
`min n 1` times, hence at most once. -/
theorem openBook_runs_at_most_once (n : Nat) :
    (retrigger n initialMountState).openBookRuns = min n 1 ∧
    (retrigger n initialMountState).openBookRuns ≤ 1 := by
  have h : (retrigger n initialMountState).openBookRuns = min n 1 := by
    cases n with
    | zero => rfl
    | succ n =>
      have h1 : retrigger (n + 1) initialMountState = retrigger n ⟨true, 1⟩ := rfl
      rw [h1, retrigger_created]
      show 1 = min (n + 1) 1
      omega
  exact ⟨h, by omega⟩

/-- C7: margin and gap application: with header and footer both hidden the
compact margin (plus top padding) and compact gap are written; otherwise
the standard margin (plus top padding) and standard gap; and a true
`scrolled` flag writes the `flow = scrolled` attribute. -/
theorem applyMarginAndGap_attrs (vs : ViewSettings) (p : Padding) :
    (vs.showHeader = false → vs.showFooter = false →
      applyMarginAndGap vs p =
        [⟨"margin", toString (vs.compactMarginPx + p.top) ++ "px"⟩,
         ⟨"gap", toString vs.compactGapPercent ++ "%"⟩] ++
        (if vs.scrolled then [⟨"flow", "scrolled"⟩] else []))
  ∧ ((vs.showHeader = true ∨ vs.showFooter = true) →
      applyMarginAndGap vs p =
        [⟨"margin", toString (vs.marginPx + p.top) ++ "px"⟩,
         ⟨"gap", toString vs.gapPercent ++ "%"⟩] ++
        (if vs.scrolled then [⟨"flow", "scrolled"⟩] else []))
  ∧ (vs.scrolled = true → AttrWrite.mk "flow" "scrolled" ∈ applyMarginAndGap vs p) := by
  refine ⟨fun h1 h2 => ?_, fun h => ?_, fun h => ?_⟩
  · simp [applyMarginAndGap, h1, h2]
  · rcases h with h | h <;> simp [applyMarginAndGap, h]
  · simp [applyMarginAndGap, h]

/-- Witness for C7 at a concrete compact, scrolled configuration. -/
theorem applyMarginAndGap_attrs_witness :
    applyMarginAndGap sampleSettings ⟨3, 0, 0, 0⟩ =
      [⟨"margin", "7px"⟩, ⟨"gap", "2%"⟩, ⟨"flow", "scrolled"⟩] :=
  ((applyMarginAndGap_attrs sampleSettings ⟨3, 0, 0, 0⟩).1 rfl rfl).trans (by decide)

/-- C4: direction resolution at open time, whenever a writing mode is
specified: a non-auto writing-mode direction wins; else a non-auto
language-derived direction wins; else `bookDoc.dir` is left unchanged. -/
theorem resolveBookDir_precedence
    (wmDir langDir : String → String) (writingMode language dir : String)
    (hwm : writingMode ≠ "") :
    (wmDir writingMode ≠ "auto" →
      resolveBookDir wmDir langDir writingMode language dir = wmDir writingMode)
  ∧ (wmDir writingMode = "auto" → langDir language ≠ "auto" →
      resolveBookDir wmDir langDir writingMode language dir = langDir language)
  ∧ (wmDir writingMode = "auto" → langDir language = "auto" →
      resolveBookDir wmDir langDir writingMode language dir = dir) := by
  refine ⟨fun h1 => ?_, fun h1 h2 => ?_, fun h1 h2 => ?_⟩ <;>
    simp [resolveBookDir, hwm, h1, *]

/-- Witness for C4: a vertical-rl writing mode resolving to rtl overrides
an ltr language direction. -/
theorem resolveBookDir_precedence_witness :
    resolveBookDir (fun _ => "rtl") (fun _ => "ltr") "vertical-rl" "en" "auto" = "rtl" :=
  (resolveBookDir_precedence (fun _ => "rtl") (fun _ => "ltr") "vertical-rl" "en" "auto"
    (by decide)).1 (by decide)

/-- C9: the progress relocate handler writes exactly one `ProgressRecord`
per event received, carrying the event's payload fields verbatim — over
any event sequence, no event is filtered out and none are coalesced. -/
theorem progressRelocate_unconditional (bookKey : String) (events : List ProgressDetail) :
    (events.map (progressRelocateHandler bookKey)).flatten =
      events.map (fun d =>
        ProgressWrite.mk bookKey d.cfi d.tocItem d.section d.location d.time d.range) := by
  induction events with
  | nil => rfl
  | cons d ds ih => simp [progressRelocateHandler, ih]

/-- C10: with no settings-store entry for the book key at delivery time,
every payload — stylesheet and XHTML included — is delivered unchanged,
for every possible pair of transform functions (so neither is invoked). -/
theorem docTransform_no_settings_passthrough
    (transformStylesheet : ViewSettings → Int → Int → String → Except String String)
    (transformContent : TransformCtx → Except String String)
    (bookKey : String) (width height : Int) (dtype dname data : String) :
    docTransformHandler transformStylesheet transformContent bookKey none width height
      dtype dname (Except.ok data) = (data, []) := rfl

/-- C3: when the transform step fails (the stylesheet transform or the
content pipeline rejects or throws), the handler catches the error, the
content delivered to the widget is the empty string, and a diagnostic
referencing the failing resource name is logged. -/
theorem docTransform_error_degrades
    (transformStylesheet : ViewSettings → Int → Int → String → Except String String)
    (transformContent : TransformCtx → Except String String)
    (bookKey : String) (viewSettings : Option ViewSettings) (width height : Int)
    (dtype dname data err : String)
    (hstep : docTransformStep transformStylesheet transformContent bookKey viewSettings
        width height dtype data = Except.error err) :
    docTransformHandler transformStylesheet transformContent bookKey viewSettings
      width height dtype dname (Except.ok data) =
      ("", ["Failed to load " ++ dname]) := by
  have hbind : (Except.ok data).bind
      (docTransformStep transformStylesheet transformContent bookKey viewSettings
        width height dtype) = Except.error err := hstep
  simp [docTransformHandler, hbind]

/-- Witness for C3: a stylesheet payload whose transform throws is
delivered as the empty string, with a diagnostic naming the resource. -/
theorem docTransform_error_degrades_witness :
    docTransformHandler (fun _ _ _ _ => Except.error "boom") (fun ctx => Except.ok ctx.content)
      "book1" (some sampleSettings) 800 600 "text/css" "style.css" (Except.ok "sheet") =
      ("", ["Failed to load style.css"]) :=
  docTransform_error_degrades (fun _ _ _ _ => Except.error "boom")
    (fun ctx => Except.ok ctx.content) "book1" (some sampleSettings) 800 600
    "text/css" "style.css" "sheet" "boom" rfl

/-- C8: payload dispatch by declared MIME type, with settings present: a
`text/css` payload goes through the stylesheet transform with the current
settings and the captured viewport dimensions; an `application/xhtml+xml`
payload goes through the content pipeline with book key, settings, raw
content and transformers `["punctuation", "footnote"]`; every other type
passes through unchanged. -/
theorem docTransform_dispatch
    (transformStylesheet : ViewSettings → Int → Int → String → Except String String)
    (transformContent : TransformCtx → Except String String)
    (bookKey : String) (vs : ViewSettings) (width height : Int) (dtype data : String) :
    (dtype = "text/css" →
      docTransformStep transformStylesheet transformContent bookKey (some vs)
        width height dtype data = transformStylesheet vs width height data)
  ∧ (dtype = "application/xhtml+xml" →
      docTransformStep transformStylesheet transformContent bookKey (some vs)
        width height dtype data =
        transformContent { bookKey := bookKey, viewSettings := vs, content := data,
                           transformers := ["punctuation", "footnote"] })
  ∧ (dtype ≠ "text/css" → dtype ≠ "application/xhtml+xml" →
      docTransformStep transformStylesheet transformContent bookKey (some vs)
        width height dtype data = Except.ok data) := by
  refine ⟨fun h1 => ?_, fun h1 => ?_, fun h1 h2 => ?_⟩
  · subst h1; rfl
  · subst h1; rfl
  · simp [docTransformStep, h1, h2]

/-- Witness for C8: a stylesheet payload at concrete transforms. -/
theorem docTransform_dispatch_witness :
    docTransformStep (fun _ _ _ d => Except.ok ("S" ++ d)) (fun ctx => Except.ok ctx.content)
      "book1" (some sampleSettings) 800 600 "text/css" "sheet" = Except.ok "Ssheet" :=
  (docTransform_dispatch (fun _ _ _ d => Except.ok ("S" ++ d)) (fun ctx => Except.ok ctx.content)
    "book1" sampleSettings 800 600 "text/css" "sheet").1 rfl

/-- C5: in every execution of `openBook` (all settings of the three branch
conditions), the local view reference and the registry entry are each
published exactly once, and the completion of `await view.open` strictly
precedes both publications: `awaitOpen` occurs among the steps taken before
the first (hence only) occurrence of `setViewRef` and of `registerView`. -/
theorem registerView_only_after_open :
    ∀ (isMobileApp animated hasLastLocation : Bool),
      (openBookTrace isMobileApp animated hasLastLocation).count OpenStep.registerView = 1 ∧
      OpenStep.awaitOpen ∈ (openBookTrace isMobileApp animated hasLastLocation).takeWhile
        (fun s => s != OpenStep.registerView) ∧
      (openBookTrace isMobileApp animated hasLastLocation).count OpenStep.setViewRef = 1 ∧
      OpenStep.awaitOpen ∈ (openBookTrace isMobileApp animated hasLastLocation).takeWhile
        (fun s => s != OpenStep.setViewRef) := by decide

/-- C6: effect-dependency separation: a re-render that leaves the theme
code and dark-mode flag unchanged never triggers the style effect; one
that leaves the padding prop and the settings snapshot unchanged never
triggers the margin/gap effect; and each effect does fire when its own
dependency array changed. -/
theorem effect_dependency_separation (s s' : RenderState) :
    (s'.themeCode = s.themeCode → s'.isDarkMode = s.isDarkMode →
      EffectKind.styleEffect ∉ effectsTriggered s s')
  ∧ (s'.padding = s.padding → s'.viewSettings = s.viewSettings →
      EffectKind.marginGapEffect ∉ effectsTriggered s s')
  ∧ (marginGapEffectDeps s ≠ marginGapEffectDeps s' →
      EffectKind.marginGapEffect ∈ effectsTriggered s s')
  ∧ (styleEffectDeps s ≠ styleEffectDeps s' →
      EffectKind.styleEffect ∈ effectsTriggered s s') := by
  refine ⟨fun h1 h2 => ?_, fun h1 h2 => ?_, fun h => ?_, fun h => ?_⟩
  · have hd : styleEffectDeps s = styleEffectDeps s' := by
      simp [styleEffectDeps, h1, h2]
    simp only [effectsTriggered, hd, ne_eq, not_true_eq_false, ite_false, if_neg,
      List.nil_append, not_not]
    split <;> simp
  · have hd : marginGapEffectDeps s = marginGapEffectDeps s' := by
      simp [marginGapEffectDeps, h1, h2]
    simp only [effectsTriggered, hd]
    split <;> simp
  · simp [effectsTriggered, h]
  · simp [effectsTriggered, h]

/-- Witness for C6: a padding-only change (top inset 1 → 9) does not
trigger the style effect. -/
theorem effect_dependency_separation_witness :
    EffectKind.styleEffect ∉
      effectsTriggered
        { themeCode := "light", isDarkMode := false, padding := ⟨1, 2, 3, 4⟩,
          viewSettings := some sampleSettings }
        { themeCode := "light", isDarkMode := false, padding := ⟨9, 2, 3, 4⟩,
          viewSettings := some sampleSettings } :=
  (effect_dependency_separation
    { themeCode := "light", isDarkMode := false, padding := ⟨1, 2, 3, 4⟩,
      viewSettings := some sampleSettings }
    { themeCode := "light", isDarkMode := false, padding := ⟨9, 2, 3, 4⟩,
      viewSettings := some sampleSettings }).1 rfl rfl

/-- Any call emitted by the propagation loop over a parallel group targets
a key of the group distinct from the originator whose view has a renderer,
and carries the event's index and fraction. -/
theorem mem_propagation_calls (bk : String) (hr : String → Bool) (idx : Nat) (frac : Int)
    (g : List String) (c : GoToCall)
    (hc : c ∈ g.flatMap (fun key =>
      if key ≠ bk then (if hr key then [GoToCall.mk key idx frac] else []) else [])) :
    c.key ∈ g ∧ c.key ≠ bk ∧ hr c.key = true ∧ c.index = idx ∧ c.anchor = frac := by
  rw [List.mem_flatMap] at hc
  obtain ⟨k, hk, hck⟩ := hc
  by_cases h1 : k ≠ bk
  · rw [if_pos h1] at hck
    by_cases h2 : hr k
    · rw [if_pos h2, List.mem_singleton] at hck
      subst hck
      exact ⟨hk, h1, h2, rfl, rfl⟩
    · rw [if_neg h2] at hck
      exact absurd hck (List.not_mem_nil c)
  · rw [if_neg h1] at hck
    exact absurd hck (List.not_mem_nil c)

/-- In a duplicate-free parallel group, a member other than the originator
whose view has a renderer receives exactly one propagated call, carrying
the event's index and fraction. -/
theorem filter_propagation_calls (bk : String) (hr : String → Bool) (idx : Nat) (frac : Int) :
    ∀ (g : List String), g.Nodup → ∀ k, k ∈ g → k ≠ bk → hr k = true →
      (g.flatMap (fun key =>
        if key ≠ bk then (if hr key then [GoToCall.mk key idx frac] else []) else [])).filter
        (fun c => c.key == k) = [GoToCall.mk k idx frac] := by
  intro g
  induction g with
  | nil => intro _ k hk; exact fun _ _ => absurd hk (List.not_mem_nil k)
  | cons a g ih =>
    intro hnd k hk hkbk hhrk
    have hnd' := List.nodup_cons.mp hnd
    rw [List.flatMap_cons, List.filter_append]
    rcases List.mem_cons.mp hk with rfl | hk'
    · have h2 : (g.flatMap (fun key =>
          if key ≠ bk then (if hr key then [GoToCall.mk key idx frac] else []) else [])).filter
          (fun c => c.key == k) = [] := by
        rw [List.filter_eq_nil_iff]
        intro c hc
        have hmem := mem_propagation_calls bk hr idx frac g c hc
        simp only [beq_iff_eq]
        intro hkey
        exact hnd'.1 (hkey ▸ hmem.1)
      rw [h2, List.append_nil, if_pos hkbk, if_pos hhrk]
      simp
    · have hka : k ≠ a := fun h => hnd'.1 (h ▸ hk')
      have h1 : ((if a ≠ bk then (if hr a then [GoToCall.mk a idx frac] else []) else []) :
          List GoToCall).filter (fun c => c.key == k) = [] := by
        by_cases ha1 : a ≠ bk
        · by_cases ha2 : hr a
          · rw [if_pos ha1, if_pos ha2]
            simp [Ne.symm hka]
          · rw [if_pos ha1, if_neg ha2]; rfl
        · rw [if_neg ha1]; rfl
      rw [h1, List.nil_append]
      exact ih hnd'.2 k hk' hkbk hhrk

/-- C2: renderer-relocate propagation: an event whose reason is outside
the scroll/page pair issues no navigation call; for an accepted event and
a duplicate-free parallel group, no call ever targets the originating
key, every other member with a renderer receives exactly one `goTo` call
carrying the event's index and fraction, and a member without a renderer
receives none. -/
theorem docRelocate_propagation (bk : String) (gp : String → Option (List String))
    (hr : String → Bool) (d : RendererRelocateDetail) :
    (d.reason ≠ "scroll" ∧ d.reason ≠ "page" → docRelocateHandler bk gp hr d = [])
  ∧ (∀ g, (d.reason = "scroll" ∨ d.reason = "page") → gp bk = some g → g.Nodup →
      (∀ c ∈ docRelocateHandler bk gp hr d, c.key ≠ bk)
    ∧ (∀ k, k ∈ g → k ≠ bk → hr k = true →
        (docRelocateHandler bk gp hr d).filter (fun c => c.key == k) =
          [GoToCall.mk k d.index d.fraction])
    ∧ (∀ k, hr k = false →
        (docRelocateHandler bk gp hr d).filter (fun c => c.key == k) = [])) := by
  constructor
  · intro h
    unfold docRelocateHandler
    rw [if_pos h]
  · intro g hre hg hnd
    have hre' : ¬(d.reason ≠ "scroll" ∧ d.reason ≠ "page") := by
      rcases hre with h | h <;> simp [h]
    have hh : docRelocateHandler bk gp hr d =
        if 0 < g.length then
          g.flatMap (fun key =>
            if key ≠ bk then
              (if hr key then [GoToCall.mk key d.index d.fraction] else [])
            else [])
        else [] := by
      unfold docRelocateHandler
      rw [if_neg hre', hg]
    refine ⟨?_, ?_, ?_⟩
    · intro c hc
      rw [hh] at hc
      by_cases hl : 0 < g.length
      · rw [if_pos hl] at hc
        exact (mem_propagation_calls bk hr d.index d.fraction g c hc).2.1
      · rw [if_neg hl] at hc
        exact absurd hc (List.not_mem_nil c)
    · intro k hk hkbk hhrk
      have hl : 0 < g.length := List.length_pos.mpr (List.ne_nil_of_mem hk)
      rw [hh, if_pos hl]
      exact filter_propagation_calls bk hr d.index d.fraction g hnd k hk hkbk hhrk
    · intro k hks
      rw [hh]
      by_cases hl : 0 < g.length
      · rw [if_pos hl, List.filter_eq_nil_iff]
        intro c hc
        have hmem := mem_propagation_calls bk hr d.index d.fraction g c hc
        simp only [beq_iff_eq]
        intro hkey
        rw [hkey] at hmem
        simp [hks] at hmem
      · rw [if_neg hl]; rfl

/-- Witness for C2: a scroll event from originator A in group A,B,C with
all renderers present sends exactly one call to B with the event's index
and fraction. -/
theorem docRelocate_propagation_witness :
    (docRelocateHandler "A" (fun _ => some ["A", "B", "C"]) (fun _ => true)
      ⟨"scroll", 3, 7⟩).filter (fun c => c.key == "B") = [GoToCall.mk "B" 3 7] :=
  ((docRelocate_propagation "A" (fun _ => some ["A", "B", "C"]) (fun _ => true)
    ⟨"scroll", 3, 7⟩).2 ["A", "B", "C"] (Or.inl rfl) rfl (by decide)).2.1 "B"
    (by decide) (by decide) rfl

end FoliateViewer
